import Mathlib

/-!
Verification of the ffmpv GPU upload / overlay-draw layer
(`src/video/out/opengl/utils.c`, `src/common/av_common.c`).

The C functions are shallowly embedded as Lean functions.  GPU state that
the code reads or writes is carried explicitly (`GLState`, `AttribState`),
and the GPU calls the code issues are recorded as explicit event traces
(`TexCall`, `ReadCall`, `GuiEvent`), so that claims about "which calls are
issued" become claims about these lists.  C `int` becomes `Int`, C `float`
becomes `Rat` (the overlay code only subtracts, compares and truncates its
floats, operations that are exact on the rationals), and a C `(int)` cast
is truncation toward zero (`truncInt`).  Texture bindings are modelled as
one binding per target, matching the single `GL_TEXTURE_BINDING_2D` word
the code itself snapshots.
-/

namespace FFMPV

/-! ## OpenGL enumeration constants used by the modelled code -/

def GL_TEXTURE0 : Nat := 33984

def GL_FUNC_ADD : Nat := 32774

def GL_SRC_ALPHA : Nat := 770

def GL_ONE_MINUS_SRC_ALPHA : Nat := 771

def GL_UNPACK_ALIGNMENT : Int := 3317

def GL_UNPACK_ROW_LENGTH : Int := 3314

def GL_PACK_ALIGNMENT : Int := 3333

def GL_COLOR_ATTACHMENT0 : Int := 36064

def GL_FRONT : Int := 1028

/-- Truncation toward zero of a rational, the semantics of a C `(int)`
cast applied to a float value. -/
def truncInt (q : Rat) : Int := q.num.tdiv (q.den : Int)

/-! ## `get_alignment` (utils.c lines 97-106) -/

/-- Embedding of `static int get_alignment(int stride)`.  The C `%` is a
divisibility-by-zero test, which agrees with the Lean `%` on `Int` for every
sign of `stride`. -/
def get_alignment (stride : Int) : Int :=
  if stride % 8 = 0 then 8
  else if stride % 4 = 0 then 4
  else if stride % 2 = 0 then 2
  else 1

/-! ## `gl_upload_tex` (utils.c lines 113-141)

The GPU effect of the function is the ordered list of `PixelStorei` and
`TexSubImage2D` calls it issues.  `gl_bytes_per_pixel` lives in
`formats.c` (not part of this repository slice); its result is taken as
the parameter `bpp`, which is how every claim quantifies over it.
A `TexSubImage2D` source pointer is recorded as its byte offset from
`dataptr`. -/

inductive TexCall where
  | pixelStorei (pname : Int) (param : Int)
  | texSubImage2D (x y w h : Int) (dataOff : Int)
deriving DecidableEq

/-- The C loop `for (; y + slice <= y_max; y += slice)` of `gl_upload_tex`,
returning the calls issued together with the final values of `y` and of the
data offset.  The `0 < slice` guard only makes the recursion total; the C
loop is entered with `slice ∈ {h, 1}` and `h > 0`, where the guard is
vacuous. -/
def uploadLoop (x w slice stride : Int) (y ymax dataOff : Int) :
    List TexCall × Int × Int :=
  if hc : 0 < slice ∧ y + slice ≤ ymax then
    (TexCall.texSubImage2D x y w slice dataOff ::
       (uploadLoop x w slice stride (y + slice) ymax (dataOff + stride * slice)).1,
     (uploadLoop x w slice stride (y + slice) ymax (dataOff + stride * slice)).2)
  else ([], y, dataOff)
termination_by (ymax - y).toNat
decreasing_by omega

/-- Embedding of `gl_upload_tex`.  `rowLengthCap` is the
`gl->mpgl_caps & MPGL_CAP_ROW_LENGTH` capability bit. -/
def gl_upload_tex (rowLengthCap : Bool) (bpp : Nat) (stride x y w h : Int) :
    List TexCall :=
  if w ≤ 0 ∨ h ≤ 0 ∨ bpp = 0 then []
  else
    let ymax := y + h
    let slice := if rowLengthCap then h else if stride = (bpp : Int) * w then h else 1
    let pre :=
      TexCall.pixelStorei GL_UNPACK_ALIGNMENT (get_alignment stride) ::
        (if rowLengthCap then
          [TexCall.pixelStorei GL_UNPACK_ROW_LENGTH (stride.tdiv (bpp : Int))]
        else [])
    let r := uploadLoop x w slice stride y ymax 0
    let post :=
      (if r.2.1 < ymax then
        [TexCall.texSubImage2D x r.2.1 w (ymax - r.2.1) r.2.2]
      else []) ++
      (if rowLengthCap then [TexCall.pixelStorei GL_UNPACK_ROW_LENGTH 0] else []) ++
      [TexCall.pixelStorei GL_UNPACK_ALIGNMENT 4]
    pre ++ r.1 ++ post

/-- Number of image rows transferred by a list of calls: the sum of the
heights of its `TexSubImage2D` calls. -/
def rowsUploaded (calls : List TexCall) : Int :=
  (calls.map fun c =>
    match c with
    | TexCall.texSubImage2D _ _ _ hh _ => hh
    | TexCall.pixelStorei _ _ => 0).sum

/-! ## `gl_read_fbo_contents` (utils.c lines 143-160) -/

inductive ReadCall where
  | bindFramebuffer (fbo : Int)
  | pixelStorei (pname : Int) (param : Int)
  | readBuffer (obj : Int)
  | readPixels (x y w h : Int) (dstOff : Int)
deriving DecidableEq

/-- Embedding of `gl_read_fbo_contents`.  `es` is `gl->es`; the result is
the C return value paired with the trace of GPU calls; a `ReadPixels`
destination is recorded as its byte offset from `dst`.  The C
`assert(dir == 1 || dir == -1)` becomes a hypothesis of the theorems. -/
def gl_read_fbo_contents (es : Bool) (fbo dir w h : Int) (dst_stride : Int) :
    Bool × List ReadCall :=
  if fbo = 0 ∧ es then (false, [])
  else
    let obj := if fbo ≠ 0 then GL_COLOR_ATTACHMENT0 else GL_FRONT
    let y1 := if dir > 0 then 0 else h
    let reads := (List.range h.toNat).map fun yy =>
      ReadCall.readPixels 0 (yy : Int) w 1 ((y1 + dir * (yy : Int)) * dst_stride)
    (true,
      ReadCall.bindFramebuffer fbo ::
      ReadCall.pixelStorei GL_PACK_ALIGNMENT 1 ::
      ReadCall.readBuffer obj ::
      reads ++
      [ReadCall.pixelStorei GL_PACK_ALIGNMENT 4, ReadCall.bindFramebuffer 0])

/-! ## The overlay draw driver `gui_run` (utils.c lines 469-587)

The GPU context state relevant to `gui_run` is carried in `GLState`:
exactly the fields the function reads through `GetIntegerv`/`IsEnabled`
or writes through state-setting calls, plus the element-array binding it
also touches and a fresh-name counter backing `GenVertexArrays`.
Per-vertex attribute pointers and program uniforms are set by the code
but never snapshotted, never read back and not mentioned by any claim,
so they are not carried.  Draw submissions and the snapshot/restore
brackets are recorded in a `GuiEvent` trace. -/

structure ImVec2 where
  x : Rat
  y : Rat
deriving DecidableEq

structure ImVec4 where
  x : Rat
  y : Rat
  z : Rat
  w : Rat
deriving DecidableEq

structure ImDrawCmd where
  clipRect : ImVec4
  textureId : Nat
  elemCount : Nat
  userCallback : Bool
deriving DecidableEq

structure ImDrawList where
  vtxSize : Nat
  idxSize : Nat
  cmdBuffer : List ImDrawCmd
deriving DecidableEq

structure ImDrawData where
  displayPos : ImVec2
  displaySize : ImVec2
  cmdLists : List ImDrawList
deriving DecidableEq

structure GLState where
  activeTexture : Nat
  currentProgram : Nat
  textureBinding2D : Nat
  arrayBufferBinding : Nat
  elementArrayBinding : Nat
  vertexArrayBinding : Nat
  viewport : Int × Int × Int × Int
  scissorBox : Int × Int × Int × Int
  blendSrcRgb : Nat
  blendDstRgb : Nat
  blendSrcAlpha : Nat
  blendDstAlpha : Nat
  blendEquationRgb : Nat
  blendEquationAlpha : Nat
  enableBlend : Bool
  enableCullFace : Bool
  enableDepthTest : Bool
  enableScissorTest : Bool
  nextVaoName : Nat
deriving DecidableEq

/-- The fixed-shape record captured by the backup block of `gui_run`
(utils.c lines 489-506): one field per `GetIntegerv`/`IsEnabled` read. -/
structure StateSnapshot where
  activeTexture : Nat
  currentProgram : Nat
  textureBinding2D : Nat
  arrayBufferBinding : Nat
  vertexArrayBinding : Nat
  viewport : Int × Int × Int × Int
  scissorBox : Int × Int × Int × Int
  blendSrcRgb : Nat
  blendDstRgb : Nat
  blendSrcAlpha : Nat
  blendDstAlpha : Nat
  blendEquationRgb : Nat
  blendEquationAlpha : Nat
  enableBlend : Bool
  enableCullFace : Bool
  enableDepthTest : Bool
  enableScissorTest : Bool
deriving DecidableEq

/-- Project the snapshot-covered fields out of a `GLState`. -/
def snapshot (s : GLState) : StateSnapshot :=
  { activeTexture := s.activeTexture
    currentProgram := s.currentProgram
    textureBinding2D := s.textureBinding2D
    arrayBufferBinding := s.arrayBufferBinding
    vertexArrayBinding := s.vertexArrayBinding
    viewport := s.viewport
    scissorBox := s.scissorBox
    blendSrcRgb := s.blendSrcRgb
    blendDstRgb := s.blendDstRgb
    blendSrcAlpha := s.blendSrcAlpha
    blendDstAlpha := s.blendDstAlpha
    blendEquationRgb := s.blendEquationRgb
    blendEquationAlpha := s.blendEquationAlpha
    enableBlend := s.enableBlend
    enableCullFace := s.enableCullFace
    enableDepthTest := s.enableDepthTest
    enableScissorTest := s.enableScissorTest }

/-- The module-level globals `g_ShaderHandle`, `g_VboHandle`,
`g_ElementsHandle` that `gui_run` reads. -/
structure GuiGlobals where
  shaderHandle : Nat
  vboHandle : Nat
  elementsHandle : Nat
deriving DecidableEq

inductive GuiEvent where
  | snapshotTaken
  | draw (scissor : Int × Int × Int × Int) (texture : Nat) (elemCount : Nat)
      (idxOffset : Nat)
  | restored
deriving DecidableEq

/-- Keep only the `draw` submissions of a trace. -/
def drawEvents (evs : List GuiEvent) : List GuiEvent :=
  evs.filter fun e =>
    match e with
    | GuiEvent.draw _ _ _ _ => true
    | _ => false

def fbWidth (d : ImDrawData) (scale : ImVec2) : Int :=
  truncInt (d.displaySize.x * scale.x)

def fbHeight (d : ImDrawData) (scale : ImVec2) : Int :=
  truncInt (d.displaySize.y * scale.y)

/-- The display-origin translation of the clip rectangle of a command
(utils.c line 556). -/
def translateClip (pos : ImVec2) (r : ImVec4) : ImVec4 :=
  ⟨r.x - pos.x, r.y - pos.y, r.z - pos.x, r.w - pos.y⟩

/-- The scissor rectangle issued for an accepted command on the
lower-left-origin path (utils.c line 563). -/
def scissorOf (fbh : Int) (clip : ImVec4) : Int × Int × Int × Int :=
  (truncInt clip.x, truncInt ((fbh : Rat) - clip.w),
   truncInt (clip.z - clip.x), truncInt (clip.w - clip.y))

/-- One iteration of the inner per-command loop (utils.c lines 554-571).
The accumulator carries the GPU state, the event trace so far, and
`idx_buffer_offset` in index units. -/
def runDrawCmd (fbw fbh : Int) (pos : ImVec2)
    (acc : GLState × List GuiEvent × Nat) (pcmd : ImDrawCmd) :
    GLState × List GuiEvent × Nat :=
  let s := acc.1
  let evs := acc.2.1
  let off := acc.2.2
  let clip := translateClip pos pcmd.clipRect
  if pcmd.userCallback then acc
  else
    if clip.x < (fbw : Rat) ∧ clip.y < (fbh : Rat) ∧ 0 ≤ clip.z ∧ 0 ≤ clip.w then
      let clip_origin_lower_left := true
      let sc :=
        if clip_origin_lower_left then scissorOf fbh clip
        else (truncInt clip.x, truncInt clip.y, truncInt clip.z, truncInt clip.w)
      let s2 := { s with scissorBox := sc, textureBinding2D := pcmd.textureId }
      (s2, evs ++ [GuiEvent.draw sc pcmd.textureId pcmd.elemCount off],
       off + pcmd.elemCount)
    else (s, evs, off + pcmd.elemCount)

/-- One iteration of the outer per-command-list loop (utils.c lines
544-572): rebind and refill the shared vertex/element buffers, then replay
the commands of the list with a fresh `idx_buffer_offset`. -/
def runCmdList (g : GuiGlobals) (fbw fbh : Int) (pos : ImVec2)
    (acc : GLState × List GuiEvent) (cmdList : ImDrawList) :
    GLState × List GuiEvent :=
  let s := { acc.1 with arrayBufferBinding := g.vboHandle,
                        elementArrayBinding := g.elementsHandle }
  let r := cmdList.cmdBuffer.foldl (runDrawCmd fbw fbh pos) (s, acc.2, 0)
  (r.1, r.2.1)

/-- The restore block of `gui_run` (utils.c lines 574-586), applied in the
call order of the source. -/
def guiRestore (sn : StateSnapshot) (s : GLState) : GLState :=
  let s1 := { s with currentProgram := sn.currentProgram }
  let s2 := { s1 with textureBinding2D := sn.textureBinding2D }
  let s3 := { s2 with activeTexture := sn.activeTexture }
  let s4 := { s3 with vertexArrayBinding := sn.vertexArrayBinding }
  let s5 := { s4 with arrayBufferBinding := sn.arrayBufferBinding }
  let s6 := { s5 with blendEquationRgb := sn.blendEquationRgb,
                      blendEquationAlpha := sn.blendEquationAlpha }
  let s7 := { s6 with blendSrcRgb := sn.blendSrcRgb, blendDstRgb := sn.blendDstRgb,
                      blendSrcAlpha := sn.blendSrcAlpha,
                      blendDstAlpha := sn.blendDstAlpha }
  let s8 := if sn.enableBlend then { s7 with enableBlend := true }
            else { s7 with enableBlend := false }
  let s9 := if sn.enableCullFace then { s8 with enableCullFace := true }
            else { s8 with enableCullFace := false }
  let s10 := if sn.enableDepthTest then { s9 with enableDepthTest := true }
             else { s9 with enableDepthTest := false }
  let s11 := if sn.enableScissorTest then { s10 with enableScissorTest := true }
             else { s10 with enableScissorTest := false }
  let s12 := { s11 with viewport := sn.viewport }
  { s12 with scissorBox := sn.scissorBox }

/-- Embedding of `static void gui_run(struct gl_vao *vao)`.  `dd` is
`igGetDrawData()` (null becomes `none`), `scale` is
`io->DisplayFramebufferScale`.  The `GetUniformLocation` reads at lines
487-488 are pure queries with no effect on the carried state and are not
modelled; `GenVertexArrays` draws a fresh name from `nextVaoName`, and
`DeleteVertexArrays` on the bound object resets the binding to zero as in
GL core semantics. -/
def gui_run (g : GuiGlobals) (dd : Option ImDrawData) (scale : ImVec2)
    (s : GLState) : GLState × List GuiEvent :=
  match dd with
  | none => (s, [])
  | some d =>
    let fbw := fbWidth d scale
    let fbh := fbHeight d scale
    if fbw ≤ 0 ∨ fbh ≤ 0 then (s, [])
    else
      let last_active_texture := s.activeTexture
      let sA := { s with activeTexture := GL_TEXTURE0 }
      let sn : StateSnapshot :=
        { activeTexture := last_active_texture
          currentProgram := sA.currentProgram
          textureBinding2D := sA.textureBinding2D
          arrayBufferBinding := sA.arrayBufferBinding
          vertexArrayBinding := sA.vertexArrayBinding
          viewport := sA.viewport
          scissorBox := sA.scissorBox
          blendSrcRgb := sA.blendSrcRgb
          blendDstRgb := sA.blendDstRgb
          blendSrcAlpha := sA.blendSrcAlpha
          blendDstAlpha := sA.blendDstAlpha
          blendEquationRgb := sA.blendEquationRgb
          blendEquationAlpha := sA.blendEquationAlpha
          enableBlend := sA.enableBlend
          enableCullFace := sA.enableCullFace
          enableDepthTest := sA.enableDepthTest
          enableScissorTest := sA.enableScissorTest }
      let sB := { sA with enableBlend := true,
                          blendEquationRgb := GL_FUNC_ADD,
                          blendEquationAlpha := GL_FUNC_ADD,
                          blendSrcRgb := GL_SRC_ALPHA,
                          blendDstRgb := GL_ONE_MINUS_SRC_ALPHA,
                          blendSrcAlpha := GL_SRC_ALPHA,
                          blendDstAlpha := GL_ONE_MINUS_SRC_ALPHA,
                          enableCullFace := false,
                          enableDepthTest := false,
                          enableScissorTest := true,
                          viewport := (0, 0, fbw, fbh),
                          currentProgram := g.shaderHandle }
      let vaoHandle := sB.nextVaoName
      let sC := { sB with nextVaoName := sB.nextVaoName + 1,
                          vertexArrayBinding := vaoHandle,
                          arrayBufferBinding := g.vboHandle }
      let r := d.cmdLists.foldl (runCmdList g fbw fbh d.displayPos) (sC, [])
      let sD := if r.1.vertexArrayBinding = vaoHandle then
                  { r.1 with vertexArrayBinding := 0 }
                else r.1
      (guiRestore sn sD, GuiEvent.snapshotTaken :: r.2 ++ [GuiEvent.restored])

/-! ## Vertex binding `gl_vao_bind` / `gl_vao_unbind` (utils.c 444-467)

The GPU state these functions touch is the current vertex-array binding,
the array-buffer binding and the per-vertex-array attribute-enable flags
(`attribs vaoId attribIndex`; on a context without vertex-array objects
only `attribs 0` is ever used).  `gl_vao_enable_attribs` enables indices
`0 .. num_entries-1` on the current object; the `VertexAttribPointer`
layout data it also sets is not enable-state and is not carried. -/

structure GLvao where
  hasVAO : Bool
  vao : Nat
  buffer : Nat
  num_entries : Nat
deriving DecidableEq

@[ext]
structure AttribState where
  vaoBinding : Nat
  arrayBufferBinding : Nat
  attribs : Nat → Nat → Bool

def enableAttrib (s : AttribState) (n : Nat) : AttribState :=
  { s with attribs := fun v i =>
      if v = s.vaoBinding ∧ i = n then true else s.attribs v i }

def disableAttrib (s : AttribState) (n : Nat) : AttribState :=
  { s with attribs := fun v i =>
      if v = s.vaoBinding ∧ i = n then false else s.attribs v i }

/-- The loop of `gl_vao_enable_attribs` over `n = 0 .. num_entries - 1`. -/
def enableAttribsUpTo (s : AttribState) : Nat → AttribState
  | 0 => s
  | n + 1 => enableAttrib (enableAttribsUpTo s n) n

def gl_vao_enable_attribs (vao : GLvao) (s : AttribState) : AttribState :=
  enableAttribsUpTo s vao.num_entries

/-- The fallback loop of `gl_vao_unbind` over `n = 0 .. num_entries - 1`. -/
def disableAttribsUpTo (s : AttribState) : Nat → AttribState
  | 0 => s
  | n + 1 => disableAttrib (disableAttribsUpTo s n) n

def gl_vao_bind (vao : GLvao) (s : AttribState) : AttribState :=
  if vao.hasVAO then { s with vaoBinding := vao.vao }
  else
    let s1 := { s with arrayBufferBinding := vao.buffer }
    let s2 := gl_vao_enable_attribs vao s1
    { s2 with arrayBufferBinding := 0 }

def gl_vao_unbind (vao : GLvao) (s : AttribState) : AttribState :=
  if vao.hasVAO then { s with vaoBinding := 0 }
  else disableAttribsUpTo s vao.num_entries

/-- The attribute-enable flag at index `n` that is active (visible to the
next draw call) in state `s`. -/
def activeAttrib (s : AttribState) (n : Nat) : Bool :=
  s.attribs s.vaoBinding n

/-! ## `mp_create_side_data_from_buf` (av_common.c lines 356-389)

The two allocation sites (`av_realloc` of the side-data array and
`av_mallocz` of the entry) are oracles `reallocOk` / `mallocOk`; pointers
are modelled as numbers.  `sizeof(*frame->side_data)` is the size of a
pointer, 8 on the LP64 targets the code builds for.  The result records
the returned entry, the frame afterwards, and whether the function called
`av_buffer_unref` on the passed-in buffer. -/

def INT_MAX : Nat := 2147483647

structure MPBufRef where
  dataPtr : Nat
  size : Nat
deriving DecidableEq

structure MPSideData where
  buf : MPBufRef
  dataPtr : Nat
  size : Nat
  sdType : Nat
deriving DecidableEq

structure MPFrame where
  nb_side_data : Nat
  side_data : List MPSideData
deriving DecidableEq

structure SideDataResult where
  ret : Option MPSideData
  frame : MPFrame
  bufUnrefed : Bool
deriving DecidableEq

def mp_create_side_data_from_buf (frame : MPFrame) (sdType : Nat)
    (buf : Option MPBufRef) (reallocOk mallocOk : Bool) : SideDataResult :=
  match buf with
  | none => ⟨none, frame, false⟩
  | some b =>
    if frame.nb_side_data > INT_MAX / 8 - 1 then ⟨none, frame, true⟩
    else if reallocOk = false then ⟨none, frame, true⟩
    else if mallocOk = false then ⟨none, frame, true⟩
    else
      let ret : MPSideData := ⟨b, b.dataPtr, b.size, sdType⟩
      ⟨some ret,
       ⟨frame.nb_side_data + 1, frame.side_data ++ [ret]⟩, false⟩

/-! ## Concrete instances used by the scenario checks and witnesses -/

/-- The scenario command of the spec: clip rect (10,10,100,100), 6 elements. -/
def scenarioCmd : ImDrawCmd :=
  { clipRect := ⟨10, 10, 100, 100⟩, textureId := 7, elemCount := 6,
    userCallback := false }

/-- The overlay scenario of the spec: display size 800x600, one command list
with one command, clip rect (10,10,100,100), element count 6. -/
def scenarioDrawData : ImDrawData :=
  { displayPos := ⟨0, 0⟩, displaySize := ⟨800, 600⟩,
    cmdLists := [ { vtxSize := 4, idxSize := 6,
                    cmdBuffer := [scenarioCmd] } ] }

/-- A draw-data record whose computed framebuffer size is zero. -/
def degenerateDrawData : ImDrawData :=
  { displayPos := ⟨0, 0⟩, displaySize := ⟨0, 0⟩, cmdLists := [] }

def scenarioState : GLState :=
  ⟨0, 0, 0, 0, 0, 0, (0, 0, 0, 0), (0, 0, 0, 0), 0, 0, 0, 0, 0, 0,
   false, false, false, false, 1⟩

def scenarioGlobals : GuiGlobals := ⟨3, 1, 2⟩

def vaoFallback : GLvao := ⟨false, 0, 5, 3⟩

def vaoNative : GLvao := ⟨true, 4, 5, 3⟩

def attribState0 : AttribState := ⟨2, 9, fun _ _ => true⟩

def frame0 : MPFrame := ⟨0, []⟩

def bufRef0 : MPBufRef := ⟨100, 16⟩

end FFMPV

namespace FFMPV

/-! # Theorems -/

/-! ## C4: `get_alignment` returns the largest divisor among 8, 4, 2, 1 -/

/-- Claim C4: for every positive `stride`, `get_alignment stride` is the
largest value in {8, 4, 2, 1} that evenly divides `stride` (8 when
`stride % 8 == 0`, else 4 when `stride % 4 == 0`, else 2 when
`stride % 2 == 0`, else 1). -/
theorem get_alignment_largest_divisor (stride : Int) (hs : 0 < stride) :
    get_alignment stride ∣ stride ∧
    get_alignment stride ∈ ([8, 4, 2, 1] : List Int) ∧
    ∀ v ∈ ([8, 4, 2, 1] : List Int), v ∣ stride → v ≤ get_alignment stride := by
  unfold get_alignment
  split_ifs with h8 h4 h2 <;>
    refine ⟨?_, by simp, ?_⟩ <;>
    first
      | omega
      | · intro v hv hd
          simp only [List.mem_cons, List.not_mem_nil, or_false] at hv
          rcases hv with rfl | rfl | rfl | rfl <;> omega

/-- Witness for C4 at `stride = 12`. -/
theorem get_alignment_largest_divisor_witness :
    (0 : Int) < 12 ∧
    (get_alignment 12 ∣ 12 ∧
     get_alignment 12 ∈ ([8, 4, 2, 1] : List Int) ∧
     ∀ v ∈ ([8, 4, 2, 1] : List Int), v ∣ 12 → v ≤ get_alignment 12) :=
  ⟨by decide, get_alignment_largest_divisor 12 (by decide)⟩

/-! ## C5: the vertical flip of `gl_read_fbo_contents` -/

/-- Claim C5 (code bug): with `dir = -1` the code computes the destination
offset of framebuffer row `y` as `(h - y) * dst_stride`, not the claimed
`(h - 1 - y) * dst_stride`.  At `fbo = 1`, `es = false`, `w = 3`, `h = 2`,
`dst_stride = 16`, row 0 is stored at byte offset 32 = `h * dst_stride`,
one full row past the `h`-row destination (claimed placements are offsets
16 and 0); row 1 lands at offset 16, not 0. -/
theorem gl_read_fbo_contents_flip_off_by_one :
    (gl_read_fbo_contents false 1 (-1) 3 2 16).2 =
      [ReadCall.bindFramebuffer 1,
       ReadCall.pixelStorei GL_PACK_ALIGNMENT 1,
       ReadCall.readBuffer GL_COLOR_ATTACHMENT0,
       ReadCall.readPixels 0 0 3 1 32,
       ReadCall.readPixels 0 1 3 1 16,
       ReadCall.pixelStorei GL_PACK_ALIGNMENT 4,
       ReadCall.bindFramebuffer 0] ∧
    ¬((32 : Int) ≤ (2 - 1) * 16) := by
  constructor
  · decide
  · decide

/-! ## C6: early "nothing to draw" returns of `gui_run` -/

/-- Counterexample to claim C6: on the early return with the draw-command
list absent, `gui_run` issues no GPU calls at all — in particular the
state snapshot step does not run (the trace has no `snapshotTaken`), and
the restore step does not run either.  The claim that the snapshot and
restore steps "still run" on early returns is false. -/
theorem gui_run_early_return_skips_snapshot :
    gui_run scenarioGlobals none ⟨1, 1⟩ scenarioState = (scenarioState, []) ∧
    GuiEvent.snapshotTaken ∉ (gui_run scenarioGlobals none ⟨1, 1⟩ scenarioState).2 ∧
    gui_run scenarioGlobals (some degenerateDrawData) ⟨1, 1⟩ scenarioState
      = (scenarioState, []) := by
  refine ⟨rfl, by decide, ?_⟩
  with_unfolding_all decide

/-- Claim C6 as amended: on the early "nothing to draw" returns (draw-data
absent, or computed framebuffer width or height non-positive) `gui_run`
returns with the GPU state untouched and an empty call trace — the
snapshot and restore steps are skipped, and state isolation holds
trivially; whenever the draw proceeds past the entry checks, the snapshot
is taken first and the restore runs unconditionally before return. -/
theorem gui_run_early_return_no_state_change :
    (∀ g scale s, gui_run g none scale s = (s, [])) ∧
    (∀ g d scale s, fbWidth d scale ≤ 0 ∨ fbHeight d scale ≤ 0 →
      gui_run g (some d) scale s = (s, [])) ∧
    (∀ g d scale s, 0 < fbWidth d scale → 0 < fbHeight d scale →
      ∃ evs, (gui_run g (some d) scale s).2
        = GuiEvent.snapshotTaken :: evs ++ [GuiEvent.restored]) := by
  refine ⟨fun g scale s => rfl, fun g d scale s hle => ?_, fun g d scale s hw hh => ?_⟩
  · simp only [gui_run]
    rw [if_pos hle]
  · simp only [gui_run]
    rw [if_neg (by omega)]
    exact ⟨_, rfl⟩

/-- Witness for the amended C6 theorem, at the draw-data-absent return, a
zero-size draw-data return, and the 800x600 scenario draw. -/
theorem gui_run_early_return_no_state_change_witness :
    gui_run scenarioGlobals none ⟨1, 1⟩ scenarioState = (scenarioState, []) ∧
    gui_run scenarioGlobals (some degenerateDrawData) ⟨1, 1⟩ scenarioState
      = (scenarioState, []) ∧
    ∃ evs, (gui_run scenarioGlobals (some scenarioDrawData) ⟨1, 1⟩ scenarioState).2
      = GuiEvent.snapshotTaken :: evs ++ [GuiEvent.restored] :=
  ⟨gui_run_early_return_no_state_change.1 scenarioGlobals ⟨1, 1⟩ scenarioState,
   gui_run_early_return_no_state_change.2.1 scenarioGlobals degenerateDrawData
     ⟨1, 1⟩ scenarioState (Or.inl (by with_unfolding_all decide)),
   gui_run_early_return_no_state_change.2.2 scenarioGlobals scenarioDrawData
     ⟨1, 1⟩ scenarioState (by with_unfolding_all decide)
     (by with_unfolding_all decide)⟩

/-! ## C8: precondition violations are silently skipped -/

/-- Claim C8: `gl_upload_tex` with `w <= 0`, `h <= 0` or zero
bytes-per-pixel returns with zero GPU calls issued, and
`gl_read_fbo_contents` asked to read the default framebuffer (`fbo == 0`)
on an ES context returns `false` with zero GPU calls issued; neither case
is fatal (both functions are total). -/
theorem precondition_violations_silently_skipped :
    (∀ (cap : Bool) (bpp : Nat) (stride x y w h : Int),
      w ≤ 0 ∨ h ≤ 0 ∨ bpp = 0 → gl_upload_tex cap bpp stride x y w h = []) ∧
    (∀ (dir w h dst_stride : Int),
      gl_read_fbo_contents true 0 dir w h dst_stride = (false, [])) := by
  constructor
  · intro cap bpp stride x y w h hpre
    unfold gl_upload_tex
    rw [if_pos hpre]
  · intro dir w h dst_stride
    unfold gl_read_fbo_contents
    rw [if_pos ⟨rfl, rfl⟩]

/-- Witness for C8: a zero-width upload and an ES front-buffer readback. -/
theorem precondition_violations_silently_skipped_witness :
    gl_upload_tex true 4 16 0 0 0 4 = [] ∧
    gl_read_fbo_contents true 0 1 3 2 16 = (false, []) :=
  ⟨precondition_violations_silently_skipped.1 true 4 16 0 0 0 4
     (Or.inl (by decide)),
   precondition_violations_silently_skipped.2 1 3 2 16⟩

/-! ## C7: idempotence of `gl_vao_unbind` -/

/-- The fallback disable loop leaves the bindings alone and clears exactly
the attribute-enable flags `0 .. N-1` of the object that is bound while it
runs. -/
theorem disableAttribsUpTo_spec (s : AttribState) (N : Nat) :
    (disableAttribsUpTo s N).vaoBinding = s.vaoBinding ∧
    (disableAttribsUpTo s N).arrayBufferBinding = s.arrayBufferBinding ∧
    ∀ v i, (disableAttribsUpTo s N).attribs v i
      = if v = s.vaoBinding ∧ i < N then false else s.attribs v i := by
  induction N with
  | zero => exact ⟨rfl, rfl, fun v i => by simp [disableAttribsUpTo]⟩
  | succ n ih =>
    obtain ⟨hb, ha, hat⟩ := ih
    refine ⟨hb, ha, fun v i => ?_⟩
    simp only [disableAttribsUpTo, disableAttrib, hb, hat]
    by_cases hvb : v = s.vaoBinding
    · by_cases hin : i = n
      · simp [hvb, hin]
      · by_cases hlt : i < n
        · have h1 : i < n + 1 := by omega
          simp [hvb, hin, hlt, h1]
        · have h1 : ¬i < n + 1 := by omega
          simp [hvb, hin, hlt, h1]
    · simp [hvb]

/-- Claim C7: `gl_vao_unbind` is idempotent on the GPU attribute state
(both on the vertex-array-object path and on the fallback path); after
`gl_vao_unbind` on the fallback path every attribute index
`0 .. num_entries - 1` is disabled; on the VAO path the unbind rebinds
vertex array 0 without touching the attribute-enable flags of any object, so
the active enable flags after a `gl_vao_bind`/`gl_vao_unbind` pair are
those of object 0, unchanged — no attribute set up by this binding
remains enabled. -/
theorem gl_vao_unbind_idempotent (vao : GLvao) (s : AttribState) (n : Nat) :
    gl_vao_unbind vao (gl_vao_unbind vao s) = gl_vao_unbind vao s ∧
    (vao.hasVAO = false → n < vao.num_entries →
      activeAttrib (gl_vao_unbind vao s) n = false) ∧
    (vao.hasVAO = true →
      (gl_vao_unbind vao s).vaoBinding = 0 ∧
      (gl_vao_unbind vao s).attribs = s.attribs ∧
      ∀ i, activeAttrib (gl_vao_unbind vao (gl_vao_bind vao s)) i
        = s.attribs 0 i) := by
  refine ⟨?_, ?_, ?_⟩
  · unfold gl_vao_unbind
    by_cases hv : vao.hasVAO
    · simp [hv]
    · simp only [hv, if_neg, Bool.false_eq_true, if_false]
      obtain ⟨hb1, ha1, hat1⟩ := disableAttribsUpTo_spec s vao.num_entries
      obtain ⟨hb2, ha2, hat2⟩ :=
        disableAttribsUpTo_spec (disableAttribsUpTo s vao.num_entries)
          vao.num_entries
      apply AttribState.ext
      · rw [hb2]
      · rw [ha2]
      · funext v i
        rw [hat2, hb1, hat1]
        by_cases hvb : v = s.vaoBinding <;> by_cases hi : i < vao.num_entries <;>
          simp [hvb, hi, hat1]
  · intro hv hn
    unfold gl_vao_unbind activeAttrib
    simp only [hv, Bool.false_eq_true, if_false]
    obtain ⟨hb, _, hat⟩ := disableAttribsUpTo_spec s vao.num_entries
    rw [hat, hb]
    simp [hn]
  · intro hv
    unfold gl_vao_unbind gl_vao_bind activeAttrib
    simp [hv]

/-- Witness for C7: the fallback binding at index 1 and the native
binding, both on a state with every flag enabled. -/
theorem gl_vao_unbind_idempotent_witness :
    gl_vao_unbind vaoFallback (gl_vao_unbind vaoFallback attribState0)
      = gl_vao_unbind vaoFallback attribState0 ∧
    activeAttrib (gl_vao_unbind vaoFallback attribState0) 1 = false ∧
    (gl_vao_unbind vaoNative attribState0).vaoBinding = 0 :=
  ⟨(gl_vao_unbind_idempotent vaoFallback attribState0 1).1,
   (gl_vao_unbind_idempotent vaoFallback attribState0 1).2.1 rfl (by decide),
   ((gl_vao_unbind_idempotent vaoNative attribState0 1).2.2 rfl).1⟩

/-! ## C1: state isolation of `gui_run` -/

/-- The restore block reinstates every snapshot-covered field: taking a
snapshot right after `guiRestore` returns the restored snapshot,
whatever state the draw loop left behind. -/
theorem snapshot_guiRestore (sn : StateSnapshot) (t : GLState) :
    snapshot (guiRestore sn t) = sn := by
  obtain ⟨a1, a2, a3, a4, a5, a6, a7, a8, a9, a10, a11, a12, a13, f1, f2, f3, f4⟩ := sn
  cases f1 <;> cases f2 <;> cases f3 <;> cases f4 <;> rfl

/-- Claim C1: for every `gui_run` invocation that proceeds past its entry
checks (draw data present, computed framebuffer width and height
positive), every GPU state field captured at entry — active texture unit,
current program, 2D texture binding, array-buffer binding, vertex-array
binding, viewport, scissor box, the four blend factors, the two blend
equations and the blend/cull-face/depth-test/scissor-test enables — has
the same value after the call as before it: the snapshots taken
immediately before and immediately after the draw are field-for-field
equal. -/
theorem gui_run_state_isolation (g : GuiGlobals) (d : ImDrawData)
    (scale : ImVec2) (s : GLState)
    (hw : 0 < fbWidth d scale) (hh : 0 < fbHeight d scale) :
    snapshot (gui_run g (some d) scale s).1 = snapshot s := by
  simp only [gui_run]
  rw [if_neg (by omega : ¬(fbWidth d scale ≤ 0 ∨ fbHeight d scale ≤ 0))]
  rw [snapshot_guiRestore]
  rfl

/-- Witness for C1 at the 800x600 scenario. -/
theorem gui_run_state_isolation_witness :
    snapshot (gui_run scenarioGlobals (some scenarioDrawData) ⟨1, 1⟩
        scenarioState).1
      = snapshot scenarioState :=
  gui_run_state_isolation scenarioGlobals scenarioDrawData ⟨1, 1⟩ scenarioState
    (by with_unfolding_all decide) (by with_unfolding_all decide)

/-! ## C2: per-command clip handling in the overlay draw loop -/

set_option maxRecDepth 100000 in
/-- Claim C2: for a draw command with a null user callback, a draw call is
issued if and only if the display-origin-translated clip rectangle
satisfies `clip.x < fb_width`, `clip.y < fb_height`, `clip.z >= 0` and
`clip.w >= 0`; when issued, the scissor rectangle is
`(clip.x, fb_height - clip.w, clip.z - clip.x, clip.w - clip.y)`; and the
800x600 scenario with one command of clip rect (10,10,100,100) and element
count 6 yields exactly one draw call, with scissor (10, 500, 90, 90). -/
theorem overlay_clip_reject (fbw fbh : Int) (pos : ImVec2) (s : GLState)
    (evs : List GuiEvent) (off : Nat) (pcmd : ImDrawCmd)
    (hcb : pcmd.userCallback = false) :
    (((translateClip pos pcmd.clipRect).x < (fbw : Rat) ∧
        (translateClip pos pcmd.clipRect).y < (fbh : Rat) ∧
        0 ≤ (translateClip pos pcmd.clipRect).z ∧
        0 ≤ (translateClip pos pcmd.clipRect).w) →
      (runDrawCmd fbw fbh pos (s, evs, off) pcmd).2.1
        = evs ++ [GuiEvent.draw (scissorOf fbh (translateClip pos pcmd.clipRect))
            pcmd.textureId pcmd.elemCount off]) ∧
    (¬((translateClip pos pcmd.clipRect).x < (fbw : Rat) ∧
        (translateClip pos pcmd.clipRect).y < (fbh : Rat) ∧
        0 ≤ (translateClip pos pcmd.clipRect).z ∧
        0 ≤ (translateClip pos pcmd.clipRect).w) →
      (runDrawCmd fbw fbh pos (s, evs, off) pcmd).2.1 = evs) ∧
    drawEvents (gui_run scenarioGlobals (some scenarioDrawData) ⟨1, 1⟩
        scenarioState).2
      = [GuiEvent.draw (10, 500, 90, 90) 7 6 0] := by
  refine ⟨fun hcd => ?_, fun hcd => ?_, by with_unfolding_all decide⟩
  · simp only [runDrawCmd, hcb, Bool.false_eq_true, if_false]
    rw [if_pos hcd]
    simp
  · simp only [runDrawCmd, hcb, Bool.false_eq_true, if_false]
    rw [if_neg hcd]

/-- Witness for C2: the scenario command against an 800x600 framebuffer. -/
theorem overlay_clip_reject_witness :
    (runDrawCmd 800 600 ⟨0, 0⟩ (scenarioState, [], 0) scenarioCmd).2.1
      = [] ++ [GuiEvent.draw (scissorOf 600 (translateClip ⟨0, 0⟩
          scenarioCmd.clipRect)) scenarioCmd.textureId scenarioCmd.elemCount 0] :=
  (overlay_clip_reject 800 600 ⟨0, 0⟩ scenarioState [] 0 scenarioCmd rfl).1
    (by with_unfolding_all decide)

/-! ## C3 and C9: upload slicing and unpack-state restoration -/

/-- With `slice = h > 0` the upload loop runs exactly once and transfers
the full height. -/
theorem uploadLoop_full (x w hgt stride y off : Int) (hpos : 0 < hgt) :
    uploadLoop x w hgt stride y (y + hgt) off
      = ([TexCall.texSubImage2D x y w hgt off], y + hgt, off + stride * hgt) := by
  rw [uploadLoop, dif_pos (⟨hpos, by omega⟩ : 0 < hgt ∧ y + hgt ≤ y + hgt)]
  rw [uploadLoop, dif_neg (by omega : ¬(0 < hgt ∧ y + hgt + hgt ≤ y + hgt))]

/-- With `slice = 1` the upload loop runs once per row: row `k` is a
height-1 transfer sourced `k * stride` bytes into the data. -/
theorem uploadLoop_rows (x w stride : Int) (n : Nat) :
    ∀ y off : Int,
      uploadLoop x w 1 stride y (y + (n : Int)) off
        = ((List.range n).map fun (k : Nat) =>
             TexCall.texSubImage2D x (y + (k : Int)) w 1 (off + stride * (k : Int)),
           y + (n : Int), off + stride * (n : Int)) := by
  induction n with
  | zero =>
    intro y off
    rw [uploadLoop, dif_neg (by omega : ¬((0:Int) < 1 ∧ y + 1 ≤ y + ((0:Nat) : Int)))]
    simp
  | succ m ih =>
    intro y off
    rw [uploadLoop,
      dif_pos (⟨by omega, by push_cast; omega⟩ :
        (0:Int) < 1 ∧ y + 1 ≤ y + (((m + 1 : Nat)) : Int))]
    have harg : y + (((m + 1 : Nat)) : Int) = (y + 1) + (m : Int) := by
      push_cast; ring
    rw [harg, ih (y + 1) (off + stride * 1)]
    simp only [List.range_succ_eq_map, List.map_cons, List.map_map, Prod.mk.injEq]
    refine ⟨?_, trivial, by push_cast; ring⟩
    congr 1
    · simp
    · apply List.map_congr_left
      intro k _
      simp only [Function.comp_apply]
      congr 1 <;> push_cast <;> ring

/-- Row-length path: one full-height upload bracketed by the alignment and
row-length unpack settings. -/
theorem gl_upload_tex_rowlen_case (bpp : Nat) (stride x y w h : Int)
    (hw : 0 < w) (hh : 0 < h) (hb : bpp ≠ 0) :
    gl_upload_tex true bpp stride x y w h
      = [TexCall.pixelStorei GL_UNPACK_ALIGNMENT (get_alignment stride),
         TexCall.pixelStorei GL_UNPACK_ROW_LENGTH (stride.tdiv (bpp : Int)),
         TexCall.texSubImage2D x y w h 0,
         TexCall.pixelStorei GL_UNPACK_ROW_LENGTH 0,
         TexCall.pixelStorei GL_UNPACK_ALIGNMENT 4] := by
  unfold gl_upload_tex
  rw [if_neg (by omega : ¬(w ≤ 0 ∨ h ≤ 0 ∨ bpp = 0))]
  simp only [if_true, uploadLoop_full x w h stride y 0 hh]
  rw [if_neg (by omega : ¬(y + h < y + h))]
  simp

/-- Tightly packed path without row-length support: one full-height
upload. -/
theorem gl_upload_tex_tight_case (bpp : Nat) (stride x y w h : Int)
    (hw : 0 < w) (hh : 0 < h) (hb : bpp ≠ 0) (hts : stride = (bpp : Int) * w) :
    gl_upload_tex false bpp stride x y w h
      = [TexCall.pixelStorei GL_UNPACK_ALIGNMENT (get_alignment stride),
         TexCall.texSubImage2D x y w h 0,
         TexCall.pixelStorei GL_UNPACK_ALIGNMENT 4] := by
  unfold gl_upload_tex
  rw [if_neg (by omega : ¬(w ≤ 0 ∨ h ≤ 0 ∨ bpp = 0))]
  simp only [Bool.false_eq_true, if_false, if_pos hts,
    uploadLoop_full x w h stride y 0 hh]
  rw [if_neg (by omega : ¬(y + h < y + h))]
  simp

/-- Padded path without row-length support: exactly `h` single-row
uploads, row `k` sourced `k * stride` bytes into the data. -/
theorem gl_upload_tex_rows_case (bpp : Nat) (stride x y w h : Int)
    (hw : 0 < w) (hh : 0 < h) (hb : bpp ≠ 0) (hts : stride ≠ (bpp : Int) * w) :
    gl_upload_tex false bpp stride x y w h
      = TexCall.pixelStorei GL_UNPACK_ALIGNMENT (get_alignment stride) ::
        ((List.range h.toNat).map fun (k : Nat) =>
          TexCall.texSubImage2D x (y + (k : Int)) w 1 (stride * (k : Int))) ++
        [TexCall.pixelStorei GL_UNPACK_ALIGNMENT 4] := by
  unfold gl_upload_tex
  rw [if_neg (by omega : ¬(w ≤ 0 ∨ h ≤ 0 ∨ bpp = 0))]
  have hcast : h = (h.toNat : Int) := (Int.toNat_of_nonneg hh.le).symm
  simp only [Bool.false_eq_true, if_false, if_neg hts]
  rw [show y + h = y + (h.toNat : Int) by omega, uploadLoop_rows x w stride h.toNat]
  rw [if_neg (by omega : ¬(y + (h.toNat : Int) < y + (h.toNat : Int)))]
  simp

/-- The per-`k` one in the row map sums to `n`. -/
theorem sum_map_one (n : Nat) :
    ((List.range n).map fun _ => (1 : Int)).sum = n := by
  induction n with
  | zero => simp
  | succ m ih => simp [List.range_succ, ih]

/-- Every `gl_upload_tex` call with positive size transfers exactly `h`
rows in total. -/
theorem gl_upload_tex_rows_total (cap : Bool) (bpp : Nat) (stride x y w h : Int)
    (hw : 0 < w) (hh : 0 < h) (hb : bpp ≠ 0) :
    rowsUploaded (gl_upload_tex cap bpp stride x y w h) = h := by
  cases cap with
  | true =>
    rw [gl_upload_tex_rowlen_case bpp stride x y w h hw hh hb]
    simp [rowsUploaded]
  | false =>
    by_cases hts : stride = (bpp : Int) * w
    · rw [gl_upload_tex_tight_case bpp stride x y w h hw hh hb hts]
      simp [rowsUploaded]
    · rw [gl_upload_tex_rows_case bpp stride x y w h hw hh hb hts]
      simp [rowsUploaded, Function.comp_def, sum_map_one]
      omega

set_option maxRecDepth 100000 in
/-- Claim C3: with `w > 0`, `h > 0` and nonzero bytes-per-pixel, the upload
is a single full-height `TexSubImage2D` with unpack row length
`stride / bpp` when the row-length capability is available; without it, a
single full-height call when `stride == bpp * w`, and exactly `h`
single-row calls (row `k` sourced from `dataptr + k * stride`) otherwise;
in every case exactly `h` rows are uploaded; and the 4x4 buffer with
stride 20 at 4 bytes per pixel on a context without row-length support
produces exactly 4 row-by-row calls. -/
theorem gl_upload_tex_slicing (cap : Bool) (bpp : Nat) (stride x y w h : Int)
    (hw : 0 < w) (hh : 0 < h) (hb : bpp ≠ 0) :
    (cap = true →
      gl_upload_tex cap bpp stride x y w h
        = [TexCall.pixelStorei GL_UNPACK_ALIGNMENT (get_alignment stride),
           TexCall.pixelStorei GL_UNPACK_ROW_LENGTH (stride.tdiv (bpp : Int)),
           TexCall.texSubImage2D x y w h 0,
           TexCall.pixelStorei GL_UNPACK_ROW_LENGTH 0,
           TexCall.pixelStorei GL_UNPACK_ALIGNMENT 4]) ∧
    (cap = false → stride = (bpp : Int) * w →
      gl_upload_tex cap bpp stride x y w h
        = [TexCall.pixelStorei GL_UNPACK_ALIGNMENT (get_alignment stride),
           TexCall.texSubImage2D x y w h 0,
           TexCall.pixelStorei GL_UNPACK_ALIGNMENT 4]) ∧
    (cap = false → stride ≠ (bpp : Int) * w →
      gl_upload_tex cap bpp stride x y w h
        = TexCall.pixelStorei GL_UNPACK_ALIGNMENT (get_alignment stride) ::
          ((List.range h.toNat).map fun (k : Nat) =>
            TexCall.texSubImage2D x (y + (k : Int)) w 1 (stride * (k : Int))) ++
          [TexCall.pixelStorei GL_UNPACK_ALIGNMENT 4]) ∧
    rowsUploaded (gl_upload_tex cap bpp stride x y w h) = h ∧
    gl_upload_tex false 4 20 0 0 4 4
      = [TexCall.pixelStorei GL_UNPACK_ALIGNMENT 4,
         TexCall.texSubImage2D 0 0 4 1 0,
         TexCall.texSubImage2D 0 1 4 1 20,
         TexCall.texSubImage2D 0 2 4 1 40,
         TexCall.texSubImage2D 0 3 4 1 60,
         TexCall.pixelStorei GL_UNPACK_ALIGNMENT 4] := by
  refine ⟨fun hc => ?_, fun hc hts => ?_, fun hc hts => ?_,
    gl_upload_tex_rows_total cap bpp stride x y w h hw hh hb, ?_⟩
  · subst hc; exact gl_upload_tex_rowlen_case bpp stride x y w h hw hh hb
  · subst hc; exact gl_upload_tex_tight_case bpp stride x y w h hw hh hb hts
  · subst hc; exact gl_upload_tex_rows_case bpp stride x y w h hw hh hb hts
  · rw [gl_upload_tex_rows_case 4 20 0 0 4 4 (by decide) (by decide) (by decide)
      (by decide)]
    decide

/-- Witness for C3 at the specified 4x4, stride-20, 4-bytes-per-pixel
scenario. -/
theorem gl_upload_tex_slicing_witness :
    (false = false → (20 : Int) ≠ (4 : Nat) * (4 : Int) →
      gl_upload_tex false 4 20 0 0 4 4
        = TexCall.pixelStorei GL_UNPACK_ALIGNMENT (get_alignment 20) ::
          ((List.range (4 : Int).toNat).map fun (k : Nat) =>
            TexCall.texSubImage2D 0 ((0 : Int) + (k : Int)) 4 1 (20 * (k : Int))) ++
          [TexCall.pixelStorei GL_UNPACK_ALIGNMENT 4]) ∧
    rowsUploaded (gl_upload_tex false 4 20 0 0 4 4) = 4 :=
  ⟨(gl_upload_tex_slicing false 4 20 0 0 4 4 (by decide) (by decide)
      (by decide)).2.2.1,
   (gl_upload_tex_slicing false 4 20 0 0 4 4 (by decide) (by decide)
      (by decide)).2.2.2.1⟩

/-- Claim C9: after every `gl_upload_tex` call that performs an upload the
unpack state is restored before returning — the trace ends by setting the
unpack row length back to 0 (when the row-length capability is available)
and the unpack alignment back to 4. -/
theorem gl_upload_tex_restores_unpack_defaults (cap : Bool) (bpp : Nat)
    (stride x y w h : Int) (hw : 0 < w) (hh : 0 < h) (hb : bpp ≠ 0) :
    ∃ pre, gl_upload_tex cap bpp stride x y w h
      = pre ++ ((if cap then [TexCall.pixelStorei GL_UNPACK_ROW_LENGTH 0] else [])
          ++ [TexCall.pixelStorei GL_UNPACK_ALIGNMENT 4]) := by
  cases cap with
  | true =>
    rw [gl_upload_tex_rowlen_case bpp stride x y w h hw hh hb]
    exact ⟨[TexCall.pixelStorei GL_UNPACK_ALIGNMENT (get_alignment stride),
            TexCall.pixelStorei GL_UNPACK_ROW_LENGTH (stride.tdiv (bpp : Int)),
            TexCall.texSubImage2D x y w h 0], by simp⟩
  | false =>
    by_cases hts : stride = (bpp : Int) * w
    · rw [gl_upload_tex_tight_case bpp stride x y w h hw hh hb hts]
      exact ⟨[TexCall.pixelStorei GL_UNPACK_ALIGNMENT (get_alignment stride),
              TexCall.texSubImage2D x y w h 0], by simp⟩
    · rw [gl_upload_tex_rows_case bpp stride x y w h hw hh hb hts]
      exact ⟨TexCall.pixelStorei GL_UNPACK_ALIGNMENT (get_alignment stride) ::
          ((List.range h.toNat).map fun (k : Nat) =>
            TexCall.texSubImage2D x (y + (k : Int)) w 1 (stride * (k : Int))),
        by simp⟩

/-- Witness for C9 on a row-length-capable context. -/
theorem gl_upload_tex_restores_unpack_defaults_witness :
    ∃ pre, gl_upload_tex true 4 16 0 0 4 4
      = pre ++ ((if true then [TexCall.pixelStorei GL_UNPACK_ROW_LENGTH 0] else [])
          ++ [TexCall.pixelStorei GL_UNPACK_ALIGNMENT 4]) :=
  gl_upload_tex_restores_unpack_defaults true 4 16 0 0 4 4 (by decide) (by decide)
    (by decide)

/-! ## C10: `mp_create_side_data_from_buf` -/

/-- Claim C10: `mp_create_side_data_from_buf` returns NULL when `buf` is
NULL, when the entry count would overflow, or when either allocation
fails; on every failure path with a non-NULL `buf` it itself releases the
passed-in buffer reference; on success it returns the new entry,
`frame->nb_side_data` grows by exactly one, and the fields
buf/data/size/type come from the passed buffer and type. -/
theorem mp_create_side_data_from_buf_spec (frame : MPFrame) (sdType : Nat)
    (buf : Option MPBufRef) (reallocOk mallocOk : Bool) :
    (buf = none →
      mp_create_side_data_from_buf frame sdType buf reallocOk mallocOk
        = ⟨none, frame, false⟩) ∧
    (∀ b, buf = some b →
      (let res := mp_create_side_data_from_buf frame sdType buf reallocOk mallocOk
       (res.ret = none ↔
          frame.nb_side_data > INT_MAX / 8 - 1 ∨ reallocOk = false ∨ mallocOk = false) ∧
       (res.ret = none → res.bufUnrefed = true ∧ res.frame = frame) ∧
       (∀ e, res.ret = some e →
          res.frame.nb_side_data = frame.nb_side_data + 1 ∧
          res.frame.side_data = frame.side_data ++ [e] ∧
          e.buf = b ∧ e.dataPtr = b.dataPtr ∧ e.size = b.size ∧
          e.sdType = sdType ∧ res.bufUnrefed = false))) := by
  constructor
  · rintro rfl
    rfl
  · rintro b rfl
    simp only [mp_create_side_data_from_buf]
    split_ifs with hov hra hma <;> simp_all

/-- Witness for C10: a successful creation on an empty frame. -/
theorem mp_create_side_data_from_buf_spec_witness :
    (let res := mp_create_side_data_from_buf frame0 5 (some bufRef0) true true
     (res.ret = none ↔
        frame0.nb_side_data > INT_MAX / 8 - 1 ∨ true = false ∨ true = false) ∧
     (res.ret = none → res.bufUnrefed = true ∧ res.frame = frame0) ∧
     (∀ e, res.ret = some e →
        res.frame.nb_side_data = frame0.nb_side_data + 1 ∧
        res.frame.side_data = frame0.side_data ++ [e] ∧
        e.buf = bufRef0 ∧ e.dataPtr = bufRef0.dataPtr ∧ e.size = bufRef0.size ∧
        e.sdType = 5 ∧ res.bufUnrefed = false)) :=
  (mp_create_side_data_from_buf_spec frame0 5 (some bufRef0) true true).2
    bufRef0 rfl

end FFMPV
